import Mathlib

/-!
Verification of the geometry construction engine of
`src/contrib/libosmium/osmium/geom/factory.hpp`.

The engine is embedded shallowly: the polymorphic backend (`TGeomImpl`) is
modelled as a trace of protocol events (`BackendEvent`), the projection
(`TProjection`) as a function from locations to planar coordinates, and each
`create_*` operation as a pure function returning the trace of backend calls it
makes together with the `geometry_error` it raises, if any.
-/

namespace osmium

/-- Modelled from the spec: `osmium::Location` (osmium/osm/location.hpp, not
under src/) is a geographic coordinate stored as a pair of fixed-point
integers, comparable for equality; a default-constructed Location is the
"undefined" sentinel, which compares unequal to any real coordinate. -/
structure Location where
  x : Int
  y : Int
  deriving DecidableEq, Repr

/-- Modelled from the spec: the undefined sentinel value of `osmium::Location`
(a default-constructed Location; in libosmium both coordinates hold the
sentinel value 2147483647, outside the valid coordinate range). -/
def Location.undefined : Location :=
  ⟨2147483647, 2147483647⟩

/-- Modelled from the spec: the longitude accessor of `osmium::Location`
(identified with the stored fixed-point x coordinate). -/
def Location.lon (l : Location) : Int :=
  l.x

/-- Modelled from the spec: the latitude accessor of `osmium::Location`
(identified with the stored fixed-point y coordinate). -/
def Location.lat (l : Location) : Int :=
  l.y

/-- Modelled from the spec: `osmium::geom::Coordinates`
(osmium/geom/coordinates.hpp, not under src/): a planar (x, y) pair, the
output of a projection applied to a Location. -/
structure Coordinates where
  x : Int
  y : Int
  deriving DecidableEq, Repr

/-- Modelled from the spec: `osmium::NodeRef` (osmium/osm/node_ref.hpp, not
under src/): a source node identifier together with its resolved Location. -/
structure NodeRef where
  ref : Int
  location : Location
  deriving DecidableEq, Repr

/-- Modelled from the spec: a node, as seen by the engine: an identifier plus
a Location. -/
structure Node where
  id : Int
  location : Location
  deriving DecidableEq, Repr

/-- Modelled from the spec: `osmium::Way` as seen by the engine: an identifier
plus its node list. -/
structure Way where
  id : Int
  nodes : List NodeRef
  deriving DecidableEq, Repr

/-- Modelled from the spec: the tag of a ring inside an Area: outer or inner
(`osmium::item_type::outer_ring` / `inner_ring`). -/
inductive ring_kind where
  | outer
  | inner
  deriving DecidableEq, Repr

/-- Modelled from the spec: a ring of an Area: a NodeRefList tagged outer or
inner. -/
structure Ring where
  kind : ring_kind
  nodes : List NodeRef
  deriving DecidableEq, Repr

/-- Modelled from the spec: `osmium::Area` as seen by the engine: an
identifier plus an ordered sequence of rings. -/
structure Area where
  id : Int
  rings : List Ring
  deriving DecidableEq, Repr

/-- `osmium::geometry_error` (factory.hpp lines 59-98): a message string plus
an object id, with id 0 meaning "absent". -/
structure geometry_error where
  message : String
  id : Int
  deriving DecidableEq, Repr

/-- Construction `geometry_error{message}` (factory.hpp line 66 with the
default arguments object_type = "" and id = 0; since the id is 0 nothing is
appended to the message). -/
def geometry_error.make (message : String) : geometry_error :=
  ⟨message, 0⟩

/-- `geometry_error::set_id` (factory.hpp lines 79-88): appends
" (object_type_id=N)" to the message only when the stored id is still 0 and
the new id is nonzero; afterwards the stored id is assigned the new id
unconditionally (`m_id = id;`). -/
def geometry_error.set_id (e : geometry_error) (object_type : String) (id : Int) : geometry_error :=
  { message :=
      if e.id = 0 ∧ id ≠ 0 then
        e.message ++ (" (") ++ object_type ++ ("_id=") ++ toString id ++ (")")
      else
        e.message
    id := id }

/-- `osmium::geom::use_nodes` (factory.hpp lines 108-111). -/
inductive use_nodes where
  | unique
  | all
  deriving DecidableEq, Repr

/-- `osmium::geom::direction` (factory.hpp lines 117-120). -/
inductive direction where
  | backward
  | forward
  deriving DecidableEq, Repr

/-- One call made by the engine on its backend (`TGeomImpl`), §4.2 of the
spec. The backend is modelled as the trace of these calls. -/
inductive BackendEvent where
  | make_point (c : Coordinates)
  | linestring_start
  | linestring_add (c : Coordinates)
  | linestring_finish (numPoints : Nat)
  | polygon_start
  | polygon_add (c : Coordinates)
  | polygon_finish (numPoints : Nat)
  | multipolygon_start
  | multipolygon_polygon_start
  | multipolygon_polygon_finish
  | multipolygon_outer_ring_start
  | multipolygon_outer_ring_finish
  | multipolygon_inner_ring_start
  | multipolygon_inner_ring_finish
  | multipolygon_add (c : Coordinates)
  | multipolygon_finish
  deriving DecidableEq, Repr

/-- `IdentityProjection::operator()` (factory.hpp lines 130-132): returns its
WGS84 input unchanged as Coordinates. -/
def IdentityProjection.project (location : Location) : Coordinates :=
  ⟨location.lon, location.lat⟩

/-- `IdentityProjection::epsg` (factory.hpp lines 134-136). -/
def IdentityProjection.epsg : Int :=
  4326

/-- `IdentityProjection::proj_string` (factory.hpp lines 138-140). -/
def IdentityProjection.proj_string : String :=
  "+proj=longlat +datum=WGS84 +no_defs"

/-- `GeometryFactory::fill_linestring` (factory.hpp lines 233-240): adds every
node's projected location and counts each one. Returns the backend calls made
and the value of `num_points`. -/
def fill_linestring (proj : Location → Coordinates) : List NodeRef → List BackendEvent × Nat
  | [] => ([], 0)
  | n :: rest =>
    let r := fill_linestring proj rest
    (BackendEvent.linestring_add (proj n.location) :: r.1, r.2 + 1)

/-- The loop body of `GeometryFactory::fill_linestring_unique` (factory.hpp
lines 242-254) with the running `last_location` made explicit: a node is
added (and counted) only when its Location differs from `last`, in which case
`last` is updated to it. -/
def fill_linestring_unique_from (proj : Location → Coordinates) (last : Location) :
    List NodeRef → List BackendEvent × Nat
  | [] => ([], 0)
  | n :: rest =>
    if last ≠ n.location then
      let r := fill_linestring_unique_from proj n.location rest
      (BackendEvent.linestring_add (proj n.location) :: r.1, r.2 + 1)
    else
      fill_linestring_unique_from proj last rest

/-- `GeometryFactory::fill_linestring_unique` (factory.hpp lines 242-254):
`last_location` starts out default-constructed, i.e. undefined. -/
def fill_linestring_unique (proj : Location → Coordinates) (nodes : List NodeRef) :
    List BackendEvent × Nat :=
  fill_linestring_unique_from proj Location.undefined nodes

/-- `GeometryFactory::create_linestring` on a node list (factory.hpp lines
260-290): start the backend linestring, fill it forward or backward (reverse
iteration is traversal of the reversed list), with or without deduplication;
if fewer than 2 points were emitted raise a geometry_error, otherwise finish
with the emitted count. -/
def create_linestring (proj : Location → Coordinates) (wnl : List NodeRef)
    (un : use_nodes) (dir : direction) : List BackendEvent × Option geometry_error :=
  let filled : List BackendEvent × Nat :=
    match un with
    | use_nodes.unique =>
      match dir with
      | direction.forward => fill_linestring_unique proj wnl
      | direction.backward => fill_linestring_unique proj wnl.reverse
    | use_nodes.all =>
      match dir with
      | direction.forward => fill_linestring proj wnl
      | direction.backward => fill_linestring proj wnl.reverse
  if filled.2 < 2 then
    (BackendEvent.linestring_start :: filled.1,
      some (geometry_error.make ("need at least two points for linestring")))
  else
    (BackendEvent.linestring_start :: (filled.1 ++ [BackendEvent.linestring_finish filled.2]),
      none)

/-- `GeometryFactory::create_linestring` on a Way (factory.hpp lines 292-299):
delegates to the node-list version and on failure attaches the way's id. -/
def create_linestring_way (proj : Location → Coordinates) (way : Way)
    (un : use_nodes) (dir : direction) : List BackendEvent × Option geometry_error :=
  let r := create_linestring proj way.nodes un dir
  (r.1, r.2.map fun e => e.set_id ("way") way.id)

/-- `GeometryFactory::fill_polygon` (factory.hpp lines 307-314). -/
def fill_polygon (proj : Location → Coordinates) : List NodeRef → List BackendEvent × Nat
  | [] => ([], 0)
  | n :: rest =>
    let r := fill_polygon proj rest
    (BackendEvent.polygon_add (proj n.location) :: r.1, r.2 + 1)

/-- The loop body of `GeometryFactory::fill_polygon_unique` (factory.hpp lines
316-328) with the running `last_location` made explicit. -/
def fill_polygon_unique_from (proj : Location → Coordinates) (last : Location) :
    List NodeRef → List BackendEvent × Nat
  | [] => ([], 0)
  | n :: rest =>
    if last ≠ n.location then
      let r := fill_polygon_unique_from proj n.location rest
      (BackendEvent.polygon_add (proj n.location) :: r.1, r.2 + 1)
    else
      fill_polygon_unique_from proj last rest

/-- `GeometryFactory::fill_polygon_unique` (factory.hpp lines 316-328). -/
def fill_polygon_unique (proj : Location → Coordinates) (nodes : List NodeRef) :
    List BackendEvent × Nat :=
  fill_polygon_unique_from proj Location.undefined nodes

/-- `GeometryFactory::create_polygon` on a node list (factory.hpp lines
334-364): like create_linestring but on the polygon protocol and with a
minimum of 4 emitted points. -/
def create_polygon (proj : Location → Coordinates) (wnl : List NodeRef)
    (un : use_nodes) (dir : direction) : List BackendEvent × Option geometry_error :=
  let filled : List BackendEvent × Nat :=
    match un with
    | use_nodes.unique =>
      match dir with
      | direction.forward => fill_polygon_unique proj wnl
      | direction.backward => fill_polygon_unique proj wnl.reverse
    | use_nodes.all =>
      match dir with
      | direction.forward => fill_polygon proj wnl
      | direction.backward => fill_polygon proj wnl.reverse
  if filled.2 < 4 then
    (BackendEvent.polygon_start :: filled.1,
      some (geometry_error.make ("need at least four points for polygon")))
  else
    (BackendEvent.polygon_start :: (filled.1 ++ [BackendEvent.polygon_finish filled.2]),
      none)

/-- `GeometryFactory::create_polygon` on a Way (factory.hpp lines 366-373). -/
def create_polygon_way (proj : Location → Coordinates) (way : Way)
    (un : use_nodes) (dir : direction) : List BackendEvent × Option geometry_error :=
  let r := create_polygon proj way.nodes un dir
  (r.1, r.2.map fun e => e.set_id ("way") way.id)

/-- The loop body of `GeometryFactory::add_points` (factory.hpp lines 153-161)
with the running `last_location` made explicit: unconditional unique
deduplication of a ring's points on the multipolygon protocol. -/
def add_points_from (proj : Location → Coordinates) (last : Location) :
    List NodeRef → List BackendEvent
  | [] => []
  | n :: rest =>
    if last ≠ n.location then
      BackendEvent.multipolygon_add (proj n.location) :: add_points_from proj n.location rest
    else
      add_points_from proj last rest

/-- `GeometryFactory::add_points` (factory.hpp lines 153-161): `last_location`
starts out default-constructed, i.e. undefined. -/
def add_points (proj : Location → Coordinates) (nodes : List NodeRef) : List BackendEvent :=
  add_points_from proj Location.undefined nodes

/-- The ring loop of `GeometryFactory::create_multipolygon` (factory.hpp lines
383-402), carrying `num_polygons` and `num_rings`. An outer ring first
finishes the previous polygon when `num_polygons > 0`, then starts a polygon
and its outer ring, adds the deduplicated points, finishes the outer ring, and
increments both counters; an inner ring runs the inner-ring sub-protocol and
increments only `num_rings`. Returns the backend calls made and the final
counter values. -/
def mp_rings (proj : Location → Coordinates) :
    Nat → Nat → List Ring → List BackendEvent × Nat × Nat
  | num_polygons, num_rings, [] => ([], num_polygons, num_rings)
  | num_polygons, num_rings, r :: rest =>
    match r.kind with
    | ring_kind.outer =>
      let pre : List BackendEvent :=
        if 0 < num_polygons then [BackendEvent.multipolygon_polygon_finish] else []
      let ringEvs : List BackendEvent :=
        pre ++ [BackendEvent.multipolygon_polygon_start,
                BackendEvent.multipolygon_outer_ring_start]
            ++ add_points proj r.nodes
            ++ [BackendEvent.multipolygon_outer_ring_finish]
      let tail := mp_rings proj (num_polygons + 1) (num_rings + 1) rest
      (ringEvs ++ tail.1, tail.2)
    | ring_kind.inner =>
      let ringEvs : List BackendEvent :=
        [BackendEvent.multipolygon_inner_ring_start]
            ++ add_points proj r.nodes
            ++ [BackendEvent.multipolygon_inner_ring_finish]
      let tail := mp_rings proj num_polygons (num_rings + 1) rest
      (ringEvs ++ tail.1, tail.2)

/-- `GeometryFactory::create_multipolygon` (factory.hpp lines 377-415): start
the multipolygon, run the ring loop; if no ring was processed raise
"invalid area" (the surrounding catch attaches the area's id to the only
geometry_error raised inside), otherwise finish the last polygon and the
multipolygon. -/
def create_multipolygon (proj : Location → Coordinates) (area : Area) :
    List BackendEvent × Option geometry_error :=
  let r := mp_rings proj 0 0 area.rings
  if r.2.2 = 0 then
    (BackendEvent.multipolygon_start :: r.1,
      some ((geometry_error.make ("invalid area")).set_id ("area") area.id))
  else
    (BackendEvent.multipolygon_start ::
        (r.1 ++ [BackendEvent.multipolygon_polygon_finish, BackendEvent.multipolygon_finish]),
      none)

/-- `GeometryFactory::create_point` on a Location (factory.hpp lines 205-207),
with a projection that may fail with a geometry_error (spec §7: a failing
projection; concrete failing projections are not under src/). -/
def create_point (proj : Location → Except geometry_error Coordinates) (location : Location) :
    Except geometry_error BackendEvent :=
  match proj location with
  | Except.ok c => Except.ok (BackendEvent.make_point c)
  | Except.error e => Except.error e

/-- `GeometryFactory::create_point` on a Node (factory.hpp lines 209-216):
delegates to the Location version; a geometry_error escaping it gets the
node's id attached via set_id before being re-raised. -/
def create_point_node (proj : Location → Except geometry_error Coordinates) (node : Node) :
    Except geometry_error BackendEvent :=
  match create_point proj node.location with
  | Except.ok v => Except.ok v
  | Except.error e => Except.error (e.set_id ("node") node.id)

/-- Event classifier: a linestring add-point call. -/
def isLinestringAddEv : BackendEvent → Bool
  | BackendEvent.linestring_add _ => true
  | _ => false

/-- Event classifier: a polygon add-point call. -/
def isPolygonAddEv : BackendEvent → Bool
  | BackendEvent.polygon_add _ => true
  | _ => false

/-- Event classifier: a multipolygon add-point call. -/
def isMultipolygonAddEv : BackendEvent → Bool
  | BackendEvent.multipolygon_add _ => true
  | _ => false

/-- Event classifier: `multipolygon_polygon_start`. -/
def isPolygonStartEv : BackendEvent → Bool
  | BackendEvent.multipolygon_polygon_start => true
  | _ => false

/-- Event classifier: `multipolygon_polygon_finish`. -/
def isPolygonFinishEv : BackendEvent → Bool
  | BackendEvent.multipolygon_polygon_finish => true
  | _ => false

/-- Event classifier: `multipolygon_outer_ring_start`. -/
def isOuterRingStartEv : BackendEvent → Bool
  | BackendEvent.multipolygon_outer_ring_start => true
  | _ => false

/-- Event classifier: `multipolygon_outer_ring_finish`. -/
def isOuterRingFinishEv : BackendEvent → Bool
  | BackendEvent.multipolygon_outer_ring_finish => true
  | _ => false

/-- Event classifier: `multipolygon_inner_ring_start`. -/
def isInnerRingStartEv : BackendEvent → Bool
  | BackendEvent.multipolygon_inner_ring_start => true
  | _ => false

/-- Event classifier: `multipolygon_inner_ring_finish`. -/
def isInnerRingFinishEv : BackendEvent → Bool
  | BackendEvent.multipolygon_inner_ring_finish => true
  | _ => false

/-- Ring classifier: outer ring. -/
def isOuterRing (r : Ring) : Bool :=
  match r.kind with
  | ring_kind.outer => true
  | ring_kind.inner => false

/-- Ring classifier: inner ring. -/
def isInnerRing (r : Ring) : Bool :=
  match r.kind with
  | ring_kind.outer => false
  | ring_kind.inner => true

/-- States of the checking automaton for the multipolygon backend protocol of
spec §4.2: `multipolygon_start`; then, per polygon: `multipolygon_polygon_start`,
one outer ring (start, add-points, finish), zero or more inner rings (start,
add-points, finish), `multipolygon_polygon_finish`; then `multipolygon_finish`. -/
inductive mp_state where
  | ready
  | top
  | polygonOpen
  | inOuter
  | afterOuter
  | inInner
  | finished
  deriving DecidableEq, Repr

/-- One transition of the multipolygon-protocol automaton; `none` means the
event is not allowed in the given state. -/
def mpStep : mp_state → BackendEvent → Option mp_state
  | mp_state.ready, BackendEvent.multipolygon_start => some mp_state.top
  | mp_state.top, BackendEvent.multipolygon_polygon_start => some mp_state.polygonOpen
  | mp_state.top, BackendEvent.multipolygon_finish => some mp_state.finished
  | mp_state.polygonOpen, BackendEvent.multipolygon_outer_ring_start => some mp_state.inOuter
  | mp_state.inOuter, BackendEvent.multipolygon_add _ => some mp_state.inOuter
  | mp_state.inOuter, BackendEvent.multipolygon_outer_ring_finish => some mp_state.afterOuter
  | mp_state.afterOuter, BackendEvent.multipolygon_inner_ring_start => some mp_state.inInner
  | mp_state.inInner, BackendEvent.multipolygon_add _ => some mp_state.inInner
  | mp_state.inInner, BackendEvent.multipolygon_inner_ring_finish => some mp_state.afterOuter
  | mp_state.afterOuter, BackendEvent.multipolygon_polygon_finish => some mp_state.top
  | _, _ => none

/-- Run of the multipolygon-protocol automaton over an event trace. -/
def mpRun : Option mp_state → List BackendEvent → Option mp_state
  | s, [] => s
  | none, _ :: _ => none
  | some s, e :: rest => mpRun (mpStep s e) rest

/-- A trace is a complete, well-nested multipolygon build: every polygon start
and ring start is matched by its finish, each polygon contains exactly one
outer ring followed by its inner rings, and all ring activity happens between
the enclosing polygon's start and finish. -/
def mpValid (evs : List BackendEvent) : Bool :=
  mpRun (some mp_state.ready) evs == some mp_state.finished

theorem mpRun_none (l : List BackendEvent) : mpRun none l = none := by
  cases l <;> rfl

theorem mpRun_append (s : Option mp_state) (a b : List BackendEvent) :
    mpRun s (a ++ b) = mpRun (mpRun s a) b := by
  induction a generalizing s with
  | nil => cases s <;> rfl
  | cons e a ih =>
    cases s with
    | none => simp [mpRun, mpRun_none]
    | some s => simp [mpRun, ih]

theorem mpRun_inOuter_add_points_from (proj : Location → Coordinates)
    (last : Location) (nodes : List NodeRef) :
    mpRun (some mp_state.inOuter) (add_points_from proj last nodes)
      = some mp_state.inOuter := by
  induction nodes generalizing last with
  | nil => rfl
  | cons n rest ih =>
    by_cases h : last ≠ n.location
    · simp [add_points_from, h, mpRun, mpStep, ih]
    · simp [add_points_from, h, ih]

theorem mpRun_inInner_add_points_from (proj : Location → Coordinates)
    (last : Location) (nodes : List NodeRef) :
    mpRun (some mp_state.inInner) (add_points_from proj last nodes)
      = some mp_state.inInner := by
  induction nodes generalizing last with
  | nil => rfl
  | cons n rest ih =>
    by_cases h : last ≠ n.location
    · simp [add_points_from, h, mpRun, mpStep, ih]
    · simp [add_points_from, h, ih]

theorem mpRun_afterOuter_mp_rings (proj : Location → Coordinates)
    (p n : Nat) (hp : 0 < p) (rings : List Ring) :
    mpRun (some mp_state.afterOuter) (mp_rings proj p n rings).1
      = some mp_state.afterOuter := by
  induction rings generalizing p n with
  | nil => rfl
  | cons r rest ih =>
    cases hk : r.kind with
    | outer =>
      simp [mp_rings, hk, hp, mpRun_append, mpRun, mpStep, add_points,
        mpRun_inOuter_add_points_from, ih (p + 1) (n + 1) (Nat.succ_pos p)]
    | inner =>
      simp [mp_rings, hk, mpRun_append, mpRun, mpStep, add_points,
        mpRun_inInner_add_points_from, ih p (n + 1) hp]

theorem fill_linestring_snd (proj : Location → Coordinates) (l : List NodeRef) :
    (fill_linestring proj l).2 = l.length := by
  induction l with
  | nil => rfl
  | cons n rest ih => simp [fill_linestring, ih]

theorem fill_linestring_countP (proj : Location → Coordinates) (l : List NodeRef) :
    (fill_linestring proj l).1.countP isLinestringAddEv = (fill_linestring proj l).2 := by
  induction l with
  | nil => rfl
  | cons n rest ih => simp [fill_linestring, List.countP_cons, isLinestringAddEv, ih]

theorem fill_linestring_unique_from_countP (proj : Location → Coordinates) (last : Location)
    (l : List NodeRef) :
    (fill_linestring_unique_from proj last l).1.countP isLinestringAddEv
      = (fill_linestring_unique_from proj last l).2 := by
  induction l generalizing last with
  | nil => rfl
  | cons n rest ih =>
    by_cases h : last ≠ n.location
    · simp [fill_linestring_unique_from, h, List.countP_cons, isLinestringAddEv, ih]
    · simp [fill_linestring_unique_from, h, ih]

theorem fill_linestring_unique_from_proj_indep (proj proj2 : Location → Coordinates)
    (last : Location) (l : List NodeRef) :
    (fill_linestring_unique_from proj last l).2
      = (fill_linestring_unique_from proj2 last l).2 := by
  induction l generalizing last with
  | nil => rfl
  | cons n rest ih =>
    by_cases h : last ≠ n.location
    · simp [fill_linestring_unique_from, h, ih]
    · simp [fill_linestring_unique_from, h, ih]

theorem fill_linestring_unique_from_skip_run (proj : Location → Coordinates) (n : NodeRef)
    (post : List NodeRef) (k : Nat) :
    fill_linestring_unique_from proj n.location (List.replicate k n ++ post)
      = fill_linestring_unique_from proj n.location post := by
  induction k with
  | zero => rfl
  | succ k ih =>
    simp only [List.replicate_succ, List.cons_append, fill_linestring_unique_from,
      ne_eq, not_true_eq_false, if_false, not_not, if_neg]
    exact ih

theorem fill_polygon_snd (proj : Location → Coordinates) (l : List NodeRef) :
    (fill_polygon proj l).2 = l.length := by
  induction l with
  | nil => rfl
  | cons n rest ih => simp [fill_polygon, ih]

theorem fill_polygon_unique_from_proj_indep (proj proj2 : Location → Coordinates)
    (last : Location) (l : List NodeRef) :
    (fill_polygon_unique_from proj last l).2
      = (fill_polygon_unique_from proj2 last l).2 := by
  induction l generalizing last with
  | nil => rfl
  | cons n rest ih =>
    by_cases h : last ≠ n.location
    · simp [fill_polygon_unique_from, h, ih]
    · simp [fill_polygon_unique_from, h, ih]

theorem fill_polygon_unique_from_skip_run (proj : Location → Coordinates) (n : NodeRef)
    (post : List NodeRef) (k : Nat) :
    fill_polygon_unique_from proj n.location (List.replicate k n ++ post)
      = fill_polygon_unique_from proj n.location post := by
  induction k with
  | zero => rfl
  | succ k ih =>
    have hshape : List.replicate (k + 1) n ++ post = n :: (List.replicate k n ++ post) := by
      simp [List.replicate_succ]
    rw [hshape]
    simp only [fill_polygon_unique_from, ne_eq, not_true_eq_false, if_false, not_not, if_neg]
    exact ih

/-- C1: in a node list containing a run of k>1 consecutive nodes with equal
Locations (the run not merging into what precedes it), `unique` dedup mode
emits exactly 1 point for the run, at the run's position and with the run's
projected location; `all` mode emits all k points of the run; and the
deduplication decision compares raw Locations, so the emitted count is the
same under any two projections. This holds equally on the linestring fill
path (used by create_linestring) and on the polygon fill path (used by
create_polygon). -/
theorem unique_dedup_collapses_runs (proj proj2 : Location → Coordinates) (last : Location)
    (n : NodeRef) (k : Nat) (post : List NodeRef)
    (hk : 1 < k) (hne : last ≠ n.location) :
    (fill_linestring_unique_from proj last (List.replicate k n ++ post)
      = (BackendEvent.linestring_add (proj n.location)
            :: (fill_linestring_unique_from proj n.location post).1,
         (fill_linestring_unique_from proj n.location post).2 + 1)
    ∧ (fill_linestring proj (List.replicate k n ++ post)).2
        = k + (fill_linestring proj post).2
    ∧ (fill_linestring_unique_from proj last (List.replicate k n ++ post)).2
        = (fill_linestring_unique_from proj2 last (List.replicate k n ++ post)).2)
    ∧ (fill_polygon_unique_from proj last (List.replicate k n ++ post)
      = (BackendEvent.polygon_add (proj n.location)
            :: (fill_polygon_unique_from proj n.location post).1,
         (fill_polygon_unique_from proj n.location post).2 + 1)
    ∧ (fill_polygon proj (List.replicate k n ++ post)).2
        = k + (fill_polygon proj post).2
    ∧ (fill_polygon_unique_from proj last (List.replicate k n ++ post)).2
        = (fill_polygon_unique_from proj2 last (List.replicate k n ++ post)).2) := by
  obtain ⟨m, rfl⟩ : ∃ m, k = m + 1 := ⟨k - 1, by omega⟩
  have hshape : List.replicate (m + 1) n ++ post = n :: (List.replicate m n ++ post) := by
    simp [List.replicate_succ]
  refine ⟨⟨?_, ?_, ?_⟩, ?_, ?_, ?_⟩
  · rw [hshape]
    simp only [fill_linestring_unique_from]
    rw [if_pos hne, fill_linestring_unique_from_skip_run]
  · simp [fill_linestring_snd]
  · exact fill_linestring_unique_from_proj_indep proj proj2 last _
  · rw [hshape]
    simp only [fill_polygon_unique_from]
    rw [if_pos hne, fill_polygon_unique_from_skip_run]
  · simp [fill_polygon_snd]
  · exact fill_polygon_unique_from_proj_indep proj proj2 last _

/-- Concrete instance of `unique_dedup_collapses_runs`: a run of three equal
nodes at the head of a list emits one point under unique dedup and three
points under all, on both the linestring and the polygon fill paths. -/
theorem unique_dedup_collapses_runs_witness :
    (fill_linestring_unique_from IdentityProjection.project Location.undefined
        (List.replicate 3 (⟨1, ⟨10000000, 20000000⟩⟩ : NodeRef) ++ [])
      = (BackendEvent.linestring_add (IdentityProjection.project ⟨10000000, 20000000⟩)
            :: (fill_linestring_unique_from IdentityProjection.project ⟨10000000, 20000000⟩ []).1,
         (fill_linestring_unique_from IdentityProjection.project ⟨10000000, 20000000⟩ []).2 + 1)
    ∧ (fill_linestring IdentityProjection.project
          (List.replicate 3 (⟨1, ⟨10000000, 20000000⟩⟩ : NodeRef) ++ [])).2
        = 3 + (fill_linestring IdentityProjection.project []).2)
    ∧ (fill_polygon_unique_from IdentityProjection.project Location.undefined
        (List.replicate 3 (⟨1, ⟨10000000, 20000000⟩⟩ : NodeRef) ++ [])
      = (BackendEvent.polygon_add (IdentityProjection.project ⟨10000000, 20000000⟩)
            :: (fill_polygon_unique_from IdentityProjection.project ⟨10000000, 20000000⟩ []).1,
         (fill_polygon_unique_from IdentityProjection.project ⟨10000000, 20000000⟩ []).2 + 1)
    ∧ (fill_polygon IdentityProjection.project
          (List.replicate 3 (⟨1, ⟨10000000, 20000000⟩⟩ : NodeRef) ++ [])).2
        = 3 + (fill_polygon IdentityProjection.project []).2) := by
  have h := unique_dedup_collapses_runs IdentityProjection.project IdentityProjection.project
    Location.undefined (⟨1, ⟨10000000, 20000000⟩⟩ : NodeRef) 3 []
    (by decide) (by decide)
  exact ⟨⟨h.1.1, h.1.2.1⟩, h.2.1, h.2.2.1⟩

theorem fill_polygon_countP (proj : Location → Coordinates) (l : List NodeRef) :
    (fill_polygon proj l).1.countP isPolygonAddEv = (fill_polygon proj l).2 := by
  induction l with
  | nil => rfl
  | cons n rest ih => simp [fill_polygon, List.countP_cons, isPolygonAddEv, ih]

theorem fill_polygon_unique_from_countP (proj : Location → Coordinates) (last : Location)
    (l : List NodeRef) :
    (fill_polygon_unique_from proj last l).1.countP isPolygonAddEv
      = (fill_polygon_unique_from proj last l).2 := by
  induction l generalizing last with
  | nil => rfl
  | cons n rest ih =>
    by_cases h : last ≠ n.location
    · simp [fill_polygon_unique_from, h, List.countP_cons, isPolygonAddEv, ih]
    · simp [fill_polygon_unique_from, h, ih]

/-- C2: `create_linestring` raises the geometry_error with message exactly
"need at least two points for linestring" precisely when fewer than 2 points
were emitted (emitted points = the linestring add-point calls in the backend
trace), and with 2 or more emitted points it instead succeeds, its last
backend call being the linestring finish carrying the emitted count. -/
theorem create_linestring_min_two_points (proj : Location → Coordinates)
    (wnl : List NodeRef) (un : use_nodes) (dir : direction) :
    (create_linestring proj wnl un dir).2
      = (if (create_linestring proj wnl un dir).1.countP isLinestringAddEv < 2 then
          some (geometry_error.make ("need at least two points for linestring"))
        else none)
    ∧ (2 ≤ (create_linestring proj wnl un dir).1.countP isLinestringAddEv →
        (create_linestring proj wnl un dir).1.getLast?
          = some (BackendEvent.linestring_finish
              ((create_linestring proj wnl un dir).1.countP isLinestringAddEv))) := by
  have key : ∀ F : List BackendEvent × Nat, F.1.countP isLinestringAddEv = F.2 →
      ∀ r : List BackendEvent × Option geometry_error,
      r = (if F.2 < 2 then
            (BackendEvent.linestring_start :: F.1,
              some (geometry_error.make ("need at least two points for linestring")))
          else
            (BackendEvent.linestring_start :: (F.1 ++ [BackendEvent.linestring_finish F.2]),
              none)) →
      r.2 = (if r.1.countP isLinestringAddEv < 2 then
              some (geometry_error.make ("need at least two points for linestring"))
            else none)
      ∧ (2 ≤ r.1.countP isLinestringAddEv →
          r.1.getLast? = some (BackendEvent.linestring_finish (r.1.countP isLinestringAddEv))) := by
    intro F hc r hr
    by_cases h : F.2 < 2
    · rw [if_pos h] at hr
      have hcount : r.1.countP isLinestringAddEv = F.2 := by
        rw [hr]; simp [List.countP_cons, isLinestringAddEv, hc]
      constructor
      · rw [hcount, if_pos h, hr]
      · intro h2; omega
    · rw [if_neg h] at hr
      have hcount : r.1.countP isLinestringAddEv = F.2 := by
        rw [hr]; simp [List.countP_cons, List.countP_append, isLinestringAddEv, hc]
      constructor
      · rw [hcount, if_neg h, hr]
      · intro _
        rw [hcount, hr]
        have : BackendEvent.linestring_start :: (F.1 ++ [BackendEvent.linestring_finish F.2])
            = (BackendEvent.linestring_start :: F.1) ++ [BackendEvent.linestring_finish F.2] := by
          simp
        rw [this, List.getLast?_concat]
  cases un with
  | unique =>
    cases dir with
    | forward =>
      exact key (fill_linestring_unique proj wnl)
        (fill_linestring_unique_from_countP proj Location.undefined wnl) _ rfl
    | backward =>
      exact key (fill_linestring_unique proj wnl.reverse)
        (fill_linestring_unique_from_countP proj Location.undefined wnl.reverse) _ rfl
  | all =>
    cases dir with
    | forward => exact key (fill_linestring proj wnl) (fill_linestring_countP proj wnl) _ rfl
    | backward =>
      exact key (fill_linestring proj wnl.reverse) (fill_linestring_countP proj wnl.reverse) _ rfl

/-- Concrete instance of `create_linestring_min_two_points`: a two-point list
succeeds with a finish call carrying count 2, and a one-point list fails with
the exact message. -/
theorem create_linestring_min_two_points_witness :
    (create_linestring IdentityProjection.project
        [⟨1, ⟨0, 0⟩⟩, ⟨2, ⟨10000000, 0⟩⟩] use_nodes.unique direction.forward).2 = none
    ∧ (create_linestring IdentityProjection.project
        [⟨1, ⟨0, 0⟩⟩, ⟨2, ⟨10000000, 0⟩⟩] use_nodes.unique direction.forward).1.getLast?
        = some (BackendEvent.linestring_finish 2)
    ∧ (create_linestring IdentityProjection.project
        [⟨1, ⟨0, 0⟩⟩] use_nodes.unique direction.forward).2
        = some (geometry_error.make ("need at least two points for linestring")) := by
  have h1 := create_linestring_min_two_points IdentityProjection.project
    [⟨1, ⟨0, 0⟩⟩, ⟨2, ⟨10000000, 0⟩⟩] use_nodes.unique direction.forward
  have h2 := create_linestring_min_two_points IdentityProjection.project
    [⟨1, ⟨0, 0⟩⟩] use_nodes.unique direction.forward
  refine ⟨h1.1.trans (by decide), ?_, h2.1.trans (by decide)⟩
  have := h1.2 (by decide)
  rw [this]
  decide

/-- C3: `create_polygon` raises the geometry_error with message exactly
"need at least four points for polygon" precisely when fewer than 4 points
were emitted, and with 4 or more emitted points it instead succeeds, its last
backend call being the polygon finish carrying the emitted count. -/
theorem create_polygon_min_four_points (proj : Location → Coordinates)
    (wnl : List NodeRef) (un : use_nodes) (dir : direction) :
    (create_polygon proj wnl un dir).2
      = (if (create_polygon proj wnl un dir).1.countP isPolygonAddEv < 4 then
          some (geometry_error.make ("need at least four points for polygon"))
        else none)
    ∧ (4 ≤ (create_polygon proj wnl un dir).1.countP isPolygonAddEv →
        (create_polygon proj wnl un dir).1.getLast?
          = some (BackendEvent.polygon_finish
              ((create_polygon proj wnl un dir).1.countP isPolygonAddEv))) := by
  have key : ∀ F : List BackendEvent × Nat, F.1.countP isPolygonAddEv = F.2 →
      ∀ r : List BackendEvent × Option geometry_error,
      r = (if F.2 < 4 then
            (BackendEvent.polygon_start :: F.1,
              some (geometry_error.make ("need at least four points for polygon")))
          else
            (BackendEvent.polygon_start :: (F.1 ++ [BackendEvent.polygon_finish F.2]),
              none)) →
      r.2 = (if r.1.countP isPolygonAddEv < 4 then
              some (geometry_error.make ("need at least four points for polygon"))
            else none)
      ∧ (4 ≤ r.1.countP isPolygonAddEv →
          r.1.getLast? = some (BackendEvent.polygon_finish (r.1.countP isPolygonAddEv))) := by
    intro F hc r hr
    by_cases h : F.2 < 4
    · rw [if_pos h] at hr
      have hcount : r.1.countP isPolygonAddEv = F.2 := by
        rw [hr]; simp [List.countP_cons, isPolygonAddEv, hc]
      constructor
      · rw [hcount, if_pos h, hr]
      · intro h2; omega
    · rw [if_neg h] at hr
      have hcount : r.1.countP isPolygonAddEv = F.2 := by
        rw [hr]; simp [List.countP_cons, List.countP_append, isPolygonAddEv, hc]
      constructor
      · rw [hcount, if_neg h, hr]
      · intro _
        rw [hcount, hr]
        have : BackendEvent.polygon_start :: (F.1 ++ [BackendEvent.polygon_finish F.2])
            = (BackendEvent.polygon_start :: F.1) ++ [BackendEvent.polygon_finish F.2] := by
          simp
        rw [this, List.getLast?_concat]
  cases un with
  | unique =>
    cases dir with
    | forward =>
      exact key (fill_polygon_unique proj wnl)
        (fill_polygon_unique_from_countP proj Location.undefined wnl) _ rfl
    | backward =>
      exact key (fill_polygon_unique proj wnl.reverse)
        (fill_polygon_unique_from_countP proj Location.undefined wnl.reverse) _ rfl
  | all =>
    cases dir with
    | forward => exact key (fill_polygon proj wnl) (fill_polygon_countP proj wnl) _ rfl
    | backward =>
      exact key (fill_polygon proj wnl.reverse) (fill_polygon_countP proj wnl.reverse) _ rfl

/-- Concrete instance of `create_polygon_min_four_points`: a four-point list
succeeds with a finish call carrying count 4, and a three-point list fails
with the exact message. -/
theorem create_polygon_min_four_points_witness :
    (create_polygon IdentityProjection.project
        [⟨1, ⟨0, 0⟩⟩, ⟨2, ⟨10000000, 0⟩⟩, ⟨3, ⟨10000000, 10000000⟩⟩, ⟨4, ⟨0, 0⟩⟩]
        use_nodes.unique direction.forward).2 = none
    ∧ (create_polygon IdentityProjection.project
        [⟨1, ⟨0, 0⟩⟩, ⟨2, ⟨10000000, 0⟩⟩, ⟨3, ⟨10000000, 10000000⟩⟩, ⟨4, ⟨0, 0⟩⟩]
        use_nodes.unique direction.forward).1.getLast?
        = some (BackendEvent.polygon_finish 4)
    ∧ (create_polygon IdentityProjection.project
        [⟨1, ⟨0, 0⟩⟩, ⟨2, ⟨10000000, 0⟩⟩, ⟨3, ⟨10000000, 10000000⟩⟩]
        use_nodes.unique direction.forward).2
        = some (geometry_error.make ("need at least four points for polygon")) := by
  have h1 := create_polygon_min_four_points IdentityProjection.project
    [⟨1, ⟨0, 0⟩⟩, ⟨2, ⟨10000000, 0⟩⟩, ⟨3, ⟨10000000, 10000000⟩⟩, ⟨4, ⟨0, 0⟩⟩]
    use_nodes.unique direction.forward
  have h2 := create_polygon_min_four_points IdentityProjection.project
    [⟨1, ⟨0, 0⟩⟩, ⟨2, ⟨10000000, 0⟩⟩, ⟨3, ⟨10000000, 10000000⟩⟩]
    use_nodes.unique direction.forward
  refine ⟨h1.1.trans (by decide), ?_, h2.1.trans (by decide)⟩
  have := h1.2 (by decide)
  rw [this]
  decide

/-- C7: traversing a node list backward is exactly traversing the reversed
list forward, before any deduplication: `create_linestring` with
direction backward agrees (same backend trace, same error) with
`create_linestring` of the reversed list with direction forward, for every
dedup mode. -/
theorem create_linestring_backward_is_reverse (proj : Location → Coordinates)
    (wnl : List NodeRef) (un : use_nodes) :
    create_linestring proj wnl un direction.backward
      = create_linestring proj wnl.reverse un direction.forward := by
  cases un <;> rfl

theorem mp_rings_num_rings (proj : Location → Coordinates) (p n : Nat) (rings : List Ring) :
    (mp_rings proj p n rings).2.2 = n + rings.length := by
  induction rings generalizing p n with
  | nil => rfl
  | cons r rest ih =>
    cases hk : r.kind with
    | outer => simp [mp_rings, hk, ih]; omega
    | inner => simp [mp_rings, hk, ih]; omega

/-- C4: `create_multipolygon` raises the geometry_error "invalid area" (with
the area's id attached through set_id) exactly when its ring loop processed
zero rings, i.e. when the area's ring sequence is empty; in that case the
backend trace is just the multipolygon start — neither a polygon finish nor
the multipolygon finish is called; and an area with a single inner ring and
no outer ring has a nonzero ring count, so it does not fail. -/
theorem create_multipolygon_invalid_area_iff :
    (∀ (proj : Location → Coordinates) (area : Area),
      (create_multipolygon proj area).2
        = if area.rings = [] then
            some ((geometry_error.make ("invalid area")).set_id ("area") area.id)
          else none)
    ∧ (∀ (proj : Location → Coordinates) (id : Int),
      create_multipolygon proj ⟨id, []⟩
        = ([BackendEvent.multipolygon_start],
            some ((geometry_error.make ("invalid area")).set_id ("area") id)))
    ∧ (∀ (proj : Location → Coordinates) (id : Int) (nodes : List NodeRef),
      (create_multipolygon proj ⟨id, [⟨ring_kind.inner, nodes⟩]⟩).2 = none) := by
  refine ⟨?_, ?_, ?_⟩
  · intro proj area
    cases hr : area.rings with
    | nil => simp [create_multipolygon, hr, mp_rings]
    | cons r rest =>
      have hlen := mp_rings_num_rings proj 0 0 (r :: rest)
      simp only [create_multipolygon, hr]
      rw [if_neg (by rw [hlen]; simp)]
      simp
  · intro proj id
    rfl
  · intro proj id nodes
    have hlen := mp_rings_num_rings proj 0 0 [⟨ring_kind.inner, nodes⟩]
    simp only [create_multipolygon]
    rw [if_neg (by rw [hlen]; simp)]

theorem add_points_from_skip_run (proj : Location → Coordinates) (n : NodeRef)
    (post : List NodeRef) (k : Nat) :
    add_points_from proj n.location (List.replicate k n ++ post)
      = add_points_from proj n.location post := by
  induction k with
  | zero => rfl
  | succ k ih =>
    have hshape : List.replicate (k + 1) n ++ post = n :: (List.replicate k n ++ post) := by
      simp [List.replicate_succ]
    rw [hshape]
    simp only [add_points_from, ne_eq, not_true_eq_false, if_false, not_not, if_neg]
    exact ih

/-- Modelled from the spec: the Area `{id=7}` of the spec's §8 example, with
the ring coordinates in the fixed-point representation of `Location`
(degrees scaled by 10^7). -/
def exampleArea : Area :=
  ⟨7,
    [⟨ring_kind.outer,
      [⟨1, ⟨0, 0⟩⟩, ⟨2, ⟨0, 0⟩⟩, ⟨3, ⟨10000000, 0⟩⟩,
       ⟨4, ⟨10000000, 10000000⟩⟩, ⟨5, ⟨0, 0⟩⟩]⟩,
     ⟨ring_kind.inner,
      [⟨6, ⟨2000000, 2000000⟩⟩, ⟨7, ⟨3000000, 2000000⟩⟩,
       ⟨8, ⟨3000000, 3000000⟩⟩, ⟨9, ⟨2000000, 2000000⟩⟩]⟩]⟩

/-- C5: `add_points`, used by `create_multipolygon` for every ring, always
merges consecutive equal Locations (there is no "all" mode on this path): a
run of k+1 equal nodes contributes at most one multipolygon add-point call.
Consequently, on the spec's example Area {id=7} the engine produces exactly
one polygon start/finish pair, one outer-ring pair with 4 deduplicated
points, one inner-ring pair with 4 deduplicated points, then the
multipolygon finish, and no failure. -/
theorem create_multipolygon_always_unique_dedup :
    (∀ (proj : Location → Coordinates) (last : Location) (n : NodeRef) (k : Nat)
        (post : List NodeRef),
      add_points_from proj last (List.replicate (k + 1) n ++ post)
        = if last = n.location then
            add_points_from proj n.location post
          else
            BackendEvent.multipolygon_add (proj n.location)
              :: add_points_from proj n.location post)
    ∧ create_multipolygon IdentityProjection.project exampleArea
        = ([BackendEvent.multipolygon_start,
            BackendEvent.multipolygon_polygon_start,
            BackendEvent.multipolygon_outer_ring_start,
            BackendEvent.multipolygon_add ⟨0, 0⟩,
            BackendEvent.multipolygon_add ⟨10000000, 0⟩,
            BackendEvent.multipolygon_add ⟨10000000, 10000000⟩,
            BackendEvent.multipolygon_add ⟨0, 0⟩,
            BackendEvent.multipolygon_outer_ring_finish,
            BackendEvent.multipolygon_inner_ring_start,
            BackendEvent.multipolygon_add ⟨2000000, 2000000⟩,
            BackendEvent.multipolygon_add ⟨3000000, 2000000⟩,
            BackendEvent.multipolygon_add ⟨3000000, 3000000⟩,
            BackendEvent.multipolygon_add ⟨2000000, 2000000⟩,
            BackendEvent.multipolygon_inner_ring_finish,
            BackendEvent.multipolygon_polygon_finish,
            BackendEvent.multipolygon_finish], none) := by
  constructor
  · intro proj last n k post
    by_cases h : last = n.location
    · rw [if_pos h]
      have hshape : List.replicate (k + 1) n ++ post = n :: (List.replicate k n ++ post) := by
        simp [List.replicate_succ]
      rw [hshape]
      simp only [add_points_from, h, ne_eq, not_true_eq_false, if_false, not_not, if_neg]
      exact add_points_from_skip_run proj n post k
    · rw [if_neg h]
      have hshape : List.replicate (k + 1) n ++ post = n :: (List.replicate k n ++ post) := by
        simp [List.replicate_succ]
      rw [hshape]
      simp only [add_points_from]
      rw [if_pos h, add_points_from_skip_run]
  · decide

/-- C6 counterexample: the stored identifier slot of a geometry_error is not
"filled in only if still empty" — a second set_id call from an outer wrapper
overwrites it. After set_id("way", 123) then set_id("area", 9), the carried
id is 9, not the innermost 123. -/
theorem set_id_overwrites_id_slot :
    ((((geometry_error.make ("need at least two points for linestring")).set_id
        ("way") 123).set_id ("area") 9).id = 9)
    ∧ ¬((((geometry_error.make ("need at least two points for linestring")).set_id
        ("way") 123).set_id ("area") 9).id = 123) := by
  constructor
  · rfl
  · decide

/-- C6 (amended): set_id appends the entity-kind/id annotation to the message
only when the stored id is still 0 and the new id is nonzero, so after a
set_id call with a nonzero id the message annotation is fixed — later set_id
calls never alter the message, and the innermost entity's identity wins in
the message (e.g. "need at least two points for linestring (way_id=123)");
the stored id field, however, is assigned unconditionally, so the id slot
holds the id of the outermost set_id call. -/
theorem set_id_message_keeps_innermost :
    (∀ (e : geometry_error) (t : String) (i : Int),
      (e.set_id t i).id = i
      ∧ (e.set_id t i).message
          = if e.id = 0 ∧ i ≠ 0 then
              e.message ++ (" (") ++ t ++ ("_id=") ++ toString i ++ (")")
            else e.message)
    ∧ (∀ (e : geometry_error) (t : String) (i : Int) (t2 : String) (i2 : Int),
        i ≠ 0 → ((e.set_id t i).set_id t2 i2).message = (e.set_id t i).message)
    ∧ ((geometry_error.make ("need at least two points for linestring")).set_id
        ("way") 123).message
        = ("need at least two points for linestring (way_id=123)") := by
  refine ⟨fun e t i => ⟨rfl, rfl⟩, ?_, by decide⟩
  intro e t i t2 i2 hi
  have hid : (e.set_id t i).id = i := rfl
  simp [geometry_error.set_id, hid, hi]

/-- Concrete instance of `set_id_message_keeps_innermost`: an outer wrapper's
set_id does not change the message once an inner nonzero id is attached. -/
theorem set_id_message_keeps_innermost_witness :
    (((geometry_error.make ("m")).set_id ("node") 5).set_id ("way") 7).message
      = ((geometry_error.make ("m")).set_id ("node") 5).message :=
  set_id_message_keeps_innermost.2.1 (geometry_error.make ("m")) ("node") 5 ("way") 7
    (by decide)

/-- A projection that always fails, for exercising the error path of
create_point (spec §7: failing projections are outside src/). -/
def failing_projection : Location → Except geometry_error Coordinates :=
  fun _ => Except.error (geometry_error.make ("projection failed"))

/-- C8: when the projection fails with a bare geometry_error during
`create_point` on a node with nonzero id, the error surfaces from
`create_point_node` with the node's identifier attached to the message
exactly once — applying the id-attachment a second time leaves the message
unchanged. -/
theorem create_point_node_attaches_id_once
    (proj : Location → Except geometry_error Coordinates) (node : Node)
    (e : geometry_error) (hp : proj node.location = Except.error e)
    (he : e.id = 0) (hn : node.id ≠ 0) :
    create_point_node proj node = Except.error (e.set_id ("node") node.id)
    ∧ (e.set_id ("node") node.id).message
        = e.message ++ (" (") ++ ("node") ++ ("_id=") ++ toString node.id ++ (")")
    ∧ (e.set_id ("node") node.id).id = node.id
    ∧ ((e.set_id ("node") node.id).set_id ("node") node.id).message
        = (e.set_id ("node") node.id).message := by
  refine ⟨?_, ?_, rfl, ?_⟩
  · simp [create_point_node, create_point, hp]
  · simp [geometry_error.set_id, he, hn]
  · have hid : (e.set_id ("node") node.id).id = node.id := rfl
    simp [geometry_error.set_id, hid, hn]

/-- Concrete instance of `create_point_node_attaches_id_once` at node id 42
under the always-failing projection. -/
theorem create_point_node_attaches_id_once_witness :
    create_point_node failing_projection ⟨42, ⟨0, 0⟩⟩
        = Except.error ((geometry_error.make ("projection failed")).set_id ("node") 42)
    ∧ ((geometry_error.make ("projection failed")).set_id ("node") 42).message
        = ("projection failed") ++ (" (") ++ ("node") ++ ("_id=") ++ toString (42 : Int) ++ (")")
    ∧ ((geometry_error.make ("projection failed")).set_id ("node") 42).id = 42
    ∧ (((geometry_error.make ("projection failed")).set_id ("node") 42).set_id ("node") 42).message
        = ((geometry_error.make ("projection failed")).set_id ("node") 42).message :=
  create_point_node_attaches_id_once failing_projection ⟨42, ⟨0, 0⟩⟩
    (geometry_error.make ("projection failed")) rfl rfl (by decide)

/-- C10: the IdentityProjection maps every Location to Coordinates carrying
the Location's own (lon, lat) unchanged, and reports the constant CRS code
4326. -/
theorem identity_projection_spec (location : Location) :
    IdentityProjection.project location = ⟨location.lon, location.lat⟩
    ∧ (IdentityProjection.project location).x = location.lon
    ∧ (IdentityProjection.project location).y = location.lat
    ∧ IdentityProjection.epsg = 4326 :=
  ⟨rfl, rfl, rfl, rfl⟩

theorem countP_add_points_from_zero (q : BackendEvent → Bool)
    (hadd : ∀ c, q (BackendEvent.multipolygon_add c) = false)
    (proj : Location → Coordinates) (last : Location) (nodes : List NodeRef) :
    (add_points_from proj last nodes).countP q = 0 := by
  induction nodes generalizing last with
  | nil => rfl
  | cons n rest ih =>
    by_cases h : last ≠ n.location
    · simp [add_points_from, h, List.countP_cons, hadd, ih]
    · simp [add_points_from, h, ih]

theorem mp_rings_countP_no_pf (q : BackendEvent → Bool)
    (hadd : ∀ c, q (BackendEvent.multipolygon_add c) = false)
    (hpf : q BackendEvent.multipolygon_polygon_finish = false)
    (proj : Location → Coordinates) (p n : Nat) (rings : List Ring) :
    (mp_rings proj p n rings).1.countP q
      = rings.countP isOuterRing
          * ((if q BackendEvent.multipolygon_polygon_start = true then 1 else 0)
             + (if q BackendEvent.multipolygon_outer_ring_start = true then 1 else 0)
             + (if q BackendEvent.multipolygon_outer_ring_finish = true then 1 else 0))
        + rings.countP isInnerRing
          * ((if q BackendEvent.multipolygon_inner_ring_start = true then 1 else 0)
             + (if q BackendEvent.multipolygon_inner_ring_finish = true then 1 else 0)) := by
  induction rings generalizing p n with
  | nil => simp [mp_rings]
  | cons r rest ih =>
    cases hk : r.kind with
    | outer =>
      by_cases hp : 0 < p <;>
        simp [mp_rings, hk, hp, List.countP_append, List.countP_cons, add_points,
          countP_add_points_from_zero q hadd, hpf, isOuterRing, isInnerRing, ih] <;>
        ring
    | inner =>
      simp [mp_rings, hk, List.countP_append, List.countP_cons, add_points,
        countP_add_points_from_zero q hadd, isOuterRing, isInnerRing, ih]
      ring

theorem mp_rings_countP_pf (proj : Location → Coordinates) (p n : Nat) (rings : List Ring) :
    (mp_rings proj p n rings).1.countP isPolygonFinishEv
      = if 0 < p then rings.countP isOuterRing else rings.countP isOuterRing - 1 := by
  induction rings generalizing p n with
  | nil => by_cases hp : 0 < p <;> simp [mp_rings, hp]
  | cons r rest ih =>
    have hadd : ∀ c, isPolygonFinishEv (BackendEvent.multipolygon_add c) = false :=
      fun c => rfl
    cases hk : r.kind with
    | outer =>
      by_cases hp : 0 < p <;>
        simp [mp_rings, hk, hp, List.countP_append, List.countP_cons, add_points,
          countP_add_points_from_zero _ hadd, isOuterRing, isPolygonFinishEv,
          ih (p + 1) (n + 1)]
    | inner =>
      by_cases hp : 0 < p <;>
        simp [mp_rings, hk, hp, List.countP_append, List.countP_cons, add_points,
          countP_add_points_from_zero _ hadd, isOuterRing, isInnerRing, isPolygonFinishEv,
          ih p (n + 1)]

theorem create_multipolygon_cons (proj : Location → Coordinates) (id : Int)
    (r0 : Ring) (rest : List Ring) :
    create_multipolygon proj ⟨id, r0 :: rest⟩
      = (BackendEvent.multipolygon_start
          :: ((mp_rings proj 0 0 (r0 :: rest)).1
              ++ [BackendEvent.multipolygon_polygon_finish, BackendEvent.multipolygon_finish]),
        none) := by
  have hlen := mp_rings_num_rings proj 0 0 (r0 :: rest)
  simp only [create_multipolygon]
  rw [if_neg (by rw [hlen]; simp)]

theorem mpRun_top_mp_rings_outer_head (proj : Location → Coordinates)
    (r0 : Ring) (rest : List Ring) (h0 : r0.kind = ring_kind.outer) :
    mpRun (some mp_state.top) (mp_rings proj 0 0 (r0 :: rest)).1
      = some mp_state.afterOuter := by
  simp [mp_rings, h0, mpRun_append, mpRun, mpStep, add_points,
    mpRun_inOuter_add_points_from,
    mpRun_afterOuter_mp_rings proj 1 1 (Nat.succ_pos 0) rest]

/-- C9: for an area whose first ring is outer (equivalently: nonempty and
every inner ring preceded by some outer ring), the backend trace of
`create_multipolygon` is accepted by the multipolygon-protocol automaton —
every polygon start and every outer/inner ring start is matched by its
finish, each polygon holds exactly one outer ring followed by its inner
rings, and all inner-ring activity happens between the enclosing polygon's
start and finish — and polygon start and polygon finish are each called
exactly once per outer ring. -/
theorem create_multipolygon_protocol (proj : Location → Coordinates) (id : Int)
    (r0 : Ring) (rest : List Ring) (h0 : r0.kind = ring_kind.outer) :
    mpValid (create_multipolygon proj ⟨id, r0 :: rest⟩).1 = true
    ∧ (create_multipolygon proj ⟨id, r0 :: rest⟩).1.countP isPolygonStartEv
        = (r0 :: rest).countP isOuterRing
    ∧ (create_multipolygon proj ⟨id, r0 :: rest⟩).1.countP isPolygonFinishEv
        = (r0 :: rest).countP isOuterRing
    ∧ (create_multipolygon proj ⟨id, r0 :: rest⟩).1.countP isOuterRingStartEv
        = (r0 :: rest).countP isOuterRing
    ∧ (create_multipolygon proj ⟨id, r0 :: rest⟩).1.countP isOuterRingFinishEv
        = (r0 :: rest).countP isOuterRing
    ∧ (create_multipolygon proj ⟨id, r0 :: rest⟩).1.countP isInnerRingStartEv
        = (r0 :: rest).countP isInnerRing
    ∧ (create_multipolygon proj ⟨id, r0 :: rest⟩).1.countP isInnerRingFinishEv
        = (r0 :: rest).countP isInnerRing := by
  rw [create_multipolygon_cons]
  have hco : (r0 :: rest).countP isOuterRing = rest.countP isOuterRing + 1 := by
    simp [List.countP_cons, isOuterRing, h0]
  refine ⟨?_, ?_, ?_, ?_, ?_, ?_, ?_⟩
  · simp [mpValid, mpRun, mpStep, mpRun_append,
      mpRun_top_mp_rings_outer_head proj r0 rest h0]
  · simp [List.countP_cons, List.countP_append,
      mp_rings_countP_no_pf isPolygonStartEv (fun c => rfl) rfl proj 0 0 (r0 :: rest),
      isPolygonStartEv]
  · simp [List.countP_cons, List.countP_append,
      mp_rings_countP_pf proj 0 0 (r0 :: rest), isPolygonFinishEv, hco]
  · simp [List.countP_cons, List.countP_append,
      mp_rings_countP_no_pf isOuterRingStartEv (fun c => rfl) rfl proj 0 0 (r0 :: rest),
      isOuterRingStartEv]
  · simp [List.countP_cons, List.countP_append,
      mp_rings_countP_no_pf isOuterRingFinishEv (fun c => rfl) rfl proj 0 0 (r0 :: rest),
      isOuterRingFinishEv]
  · simp [List.countP_cons, List.countP_append,
      mp_rings_countP_no_pf isInnerRingStartEv (fun c => rfl) rfl proj 0 0 (r0 :: rest),
      isInnerRingStartEv]
  · simp [List.countP_cons, List.countP_append,
      mp_rings_countP_no_pf isInnerRingFinishEv (fun c => rfl) rfl proj 0 0 (r0 :: rest),
      isInnerRingFinishEv]

/-- Concrete instance of `create_multipolygon_protocol`: a two-polygon area
(outer, inner, outer) yields a protocol-valid trace with two polygon
start/finish pairs. -/
theorem create_multipolygon_protocol_witness :
    mpValid (create_multipolygon IdentityProjection.project
        ⟨3, [⟨ring_kind.outer, []⟩, ⟨ring_kind.inner, []⟩, ⟨ring_kind.outer, []⟩]⟩).1 = true
    ∧ (create_multipolygon IdentityProjection.project
        ⟨3, [⟨ring_kind.outer, []⟩, ⟨ring_kind.inner, []⟩, ⟨ring_kind.outer, []⟩]⟩).1.countP
          isPolygonStartEv
        = [(⟨ring_kind.outer, []⟩ : Ring), ⟨ring_kind.inner, []⟩,
            ⟨ring_kind.outer, []⟩].countP isOuterRing
    ∧ (create_multipolygon IdentityProjection.project
        ⟨3, [⟨ring_kind.outer, []⟩, ⟨ring_kind.inner, []⟩, ⟨ring_kind.outer, []⟩]⟩).1.countP
          isPolygonFinishEv
        = [(⟨ring_kind.outer, []⟩ : Ring), ⟨ring_kind.inner, []⟩,
            ⟨ring_kind.outer, []⟩].countP isOuterRing := by
  have h := create_multipolygon_protocol IdentityProjection.project 3
    (⟨ring_kind.outer, []⟩ : Ring) [⟨ring_kind.inner, []⟩, ⟨ring_kind.outer, []⟩] rfl
  exact ⟨h.1, h.2.1, h.2.2.1⟩

end osmium
